import Mathlib

/-!
Verification development for the FLIR camera lab scripts
(`lab2-1_single_frame.py`, `lab2-2_realtime_with_save.py`).

The Python scripts are shallowly embedded: images are lists of rows of
samples, device nodes are records carrying writability/readability flags
and values, exceptions become `Except`/`Option` results, and the capture
flows become functions from a device-behaviour description to the list of
externally visible events they perform (fetch, release, save, teardown
steps, diagnostics).

External collaborators (the OpenCV colorspace converter, the Spinnaker
node map) are modelled only through the documented behaviour the scripts
rely on: `cvtColor` checks its source for emptiness and for the channel
count the requested conversion admits and raises otherwise; node reads
and writes never raise but are gated by readability/writability flags.
-/

set_option autoImplicit false

namespace Camera

/-- Does `needle` occur as a contiguous run somewhere in the list? -/
def occursIn (needle : List Char) : List Char → Bool
  | [] => needle.isEmpty
  | c :: rest => needle.isPrefixOf (c :: rest) || occursIn needle rest

/-- Case-sensitive substring test, the embedding of the Python `in`
operator on strings (the scripts apply it to upper-cased tags). -/
def strContains (hay needle : String) : Bool :=
  occursIn needle.data hay.data

/-- The embedding of the Python method `str.upper()` (ASCII format tags). -/
def strUpper (s : String) : String :=
  String.mk (s.data.map Char.toUpper)

/-- `%06d` of Python: decimal digits, zero-padded on the left to width 6. -/
def pad6 (n : Nat) : String :=
  String.mk (List.replicate (6 - (toString n).length) '0') ++ toString n

/-- A raw or converted image buffer. `gray` is a 2-dimensional ndarray
(one sample per pixel); `multi` is a 3-dimensional ndarray (one channel
list per pixel). Directly mirrors the shapes `GetNDArray` can return. -/
inductive Img where
  | gray : List (List Nat) → Img
  | multi : List (List (List Nat)) → Img
deriving DecidableEq, Repr

namespace Img

/-- Number of rows of the buffer. -/
def rows : Img → Nat
  | .gray m => m.length
  | .multi m => m.length

/-- Number of columns (length of the first row; 0 for an empty buffer). -/
def cols : Img → Nat
  | .gray m => match m with | [] => 0 | r :: _ => r.length
  | .multi m => match m with | [] => 0 | r :: _ => r.length

/-- Number of channels (first pixel of the first row for `multi`). -/
def channels : Img → Nat
  | .gray _ => 1
  | .multi m =>
    match m with
    | [] => 0
    | r :: _ => match r with | [] => 0 | px :: _ => px.length

/-- `ndarray.ndim` of the buffer: 2 for `gray`, 3 for `multi`. -/
def ndim : Img → Nat
  | .gray _ => 2
  | .multi _ => 3

/-- A buffer with at least one row and one column. -/
def nonempty (i : Img) : Bool :=
  decide (0 < i.rows) && decide (0 < i.cols)

end Img

/-- OpenCV conversion codes the scripts use. -/
inductive CvCode where
  | gray2bgr
  | rgb2bgr
  | bayerRG2bgr
  | bayerGB2bgr
  | bayerGR2bgr
  | bayerBG2bgr
deriving DecidableEq, Repr

/-- Errors `cv2.cvtColor` raises: empty source, or a source whose channel
count the requested conversion does not admit. -/
inductive CvErr where
  | emptySource
  | badChannels
deriving DecidableEq, Repr

/-- Grayscale-to-3-channel expansion (`COLOR_GRAY2BGR`): every sample is
replicated into three identical channels. -/
def expandGray (m : List (List Nat)) : List (List (List Nat)) :=
  m.map (fun row => row.map (fun v => [v, v, v]))

/-- Channel-order swap (`COLOR_RGB2BGR`): the first and third channel of
every pixel are exchanged; a fourth (alpha) channel of the source is
dropped, as OpenCV does when the destination channel count is 3. -/
def swapRB (m : List (List (List Nat))) : List (List (List Nat)) :=
  m.map (fun row => row.map (fun px =>
    match px with
    | [r, g, b] => [b, g, r]
    | [r, g, b, _a] => [b, g, r]
    | other => other))

/-- The four Bayer colour-filter patterns. -/
inductive BayerPat where
  | rg
  | gb
  | gr
  | bg
deriving DecidableEq, Repr

/-- Demosaic of a single-plane Bayer buffer. The interpolation algorithm
itself belongs to the out-of-scope OpenCV collaborator; it is modelled as
a shape-preserving per-sample expansion (which conversion code — hence
which pattern — was selected is recorded by the caller). -/
def demosaic (_p : BayerPat) (m : List (List Nat)) : List (List (List Nat)) :=
  m.map (fun row => row.map (fun v => [v, v, v]))

/-- Model of `cv2.cvtColor`, after its documented contract: the source
must be nonempty; `GRAY2BGR` and the Bayer demosaics require a
single-plane source; `RGB2BGR` belongs to the BGR-to-BGR conversion
family, which accepts a 3- or 4-channel source (a fourth alpha channel is
dropped) and produces a 3-channel output; any violation raises (here:
returns `.error`). -/
def cvtColor (img : Img) (code : CvCode) : Except CvErr Img :=
  if !img.nonempty then .error .emptySource
  else
    match img, code with
    | .gray m, .gray2bgr => .ok (.multi (expandGray m))
    | .gray m, .bayerRG2bgr => .ok (.multi (demosaic .rg m))
    | .gray m, .bayerGB2bgr => .ok (.multi (demosaic .gb m))
    | .gray m, .bayerGR2bgr => .ok (.multi (demosaic .gr m))
    | .gray m, .bayerBG2bgr => .ok (.multi (demosaic .bg m))
    | .multi m, .rgb2bgr =>
      if Img.channels (.multi m) == 3 || Img.channels (.multi m) == 4 then
        .ok (.multi (swapRB m))
      else .error .badChannels
    | _, _ => .error .badChannels

/-- A frame returned by `cam.GetNextImage`: the ndarray, the symbolic
pixel-format name (`none` models the `GetPixelFormatName` accessor being
absent, the `AttributeError` case), the numeric pixel-format value, the
incomplete flag and the image status. -/
structure RawFrame where
  img : Img
  fmtName : Option String
  pixelFormatVal : Nat
  incomplete : Bool
  status : Nat
deriving DecidableEq, Repr

/-- Which branch of `convert_image_to_bgr` produced the result. -/
inductive ConvAction where
  | mono
  | rgbSwap
  | bgrPass
  | bayerRG
  | bayerGB
  | bayerGR
  | bayerBG
  | fallbackGray
  | fallbackColor
deriving DecidableEq, Repr

/-- Result of a conversion: the output buffer, the branch taken, and
whether a degraded-handling diagnostic was printed. -/
structure ConvOut where
  out : Img
  action : ConvAction
  warned : Bool
deriving DecidableEq, Repr

/-- Embedding of `convert_image_to_bgr` (identical in both scripts): the
ordered, case-insensitive substring dispatch on the pixel-format name,
with the dimensionality fallback for unrecognized or absent names.
`cvtColor` failures propagate as `.error` (the Python code installs no
handler around them). -/
def convert_image_to_bgr (f : RawFrame) : Except CvErr ConvOut :=
  let img := f.img
  match f.fmtName with
  | some fmtName =>
    let u := strUpper fmtName
    if strContains u "MONO8" then
      (cvtColor img .gray2bgr).map (fun b => ⟨b, .mono, false⟩)
    else if strContains u "RGB8" then
      (cvtColor img .rgb2bgr).map (fun b => ⟨b, .rgbSwap, false⟩)
    else if strContains u "BGR8" then
      .ok ⟨img, .bgrPass, false⟩
    else if strContains u "BAYERRG8" then
      (cvtColor img .bayerRG2bgr).map (fun b => ⟨b, .bayerRG, false⟩)
    else if strContains u "BAYERGB8" then
      (cvtColor img .bayerGB2bgr).map (fun b => ⟨b, .bayerGB, false⟩)
    else if strContains u "BAYERGR8" then
      (cvtColor img .bayerGR2bgr).map (fun b => ⟨b, .bayerGR, false⟩)
    else if strContains u "BAYERBG8" then
      (cvtColor img .bayerBG2bgr).map (fun b => ⟨b, .bayerBG, false⟩)
    else
      if img.ndim == 2 then
        (cvtColor img .gray2bgr).map (fun b => ⟨b, .fallbackGray, true⟩)
      else
        (cvtColor img .rgb2bgr).map (fun b => ⟨b, .fallbackColor, true⟩)
  | none =>
    if img.ndim == 2 then
      (cvtColor img .gray2bgr).map (fun b => ⟨b, .fallbackGray, true⟩)
    else
      (cvtColor img .rgb2bgr).map (fun b => ⟨b, .fallbackColor, true⟩)

/-- Device-consistency of a frame: the shape `GetNDArray` delivers matches
the declared pixel format (Mono and Bayer formats are single-plane, RGB8
and BGR8 are 3-channel), and a delivered frame has positive dimensions. -/
def tagShapeOk (u : String) (img : Img) : Bool :=
  if strContains u "MONO8" then img.ndim == 2
  else if strContains u "RGB8" then img.channels == 3
  else if strContains u "BGR8" then img.channels == 3
  else if strContains u "BAYERRG8" || strContains u "BAYERGB8"
       || strContains u "BAYERGR8" || strContains u "BAYERBG8" then img.ndim == 2
  else true

/-- Well-formedness of a fetched frame: positive dimensions and a
tag-consistent buffer layout (the contract of the device collaborator). -/
def RawFrame.wf (f : RawFrame) : Bool :=
  f.img.nonempty &&
    (match f.fmtName with
     | some n => tagShapeOk (strUpper n) f.img
     | none => true)

/-- The dispatch policy exactly as the specification words it: an ordered,
case-insensitive substring match of the (upper-cased) tag, returning the
conversion the matching clause selects, `none` for unrecognized tags. -/
def spec_dispatch (u : String) : Option ConvAction :=
  if strContains u "MONO8" then some .mono
  else if strContains u "RGB8" then some .rgbSwap
  else if strContains u "BGR8" then some .bgrPass
  else if strContains u "BAYERRG8" then some .bayerRG
  else if strContains u "BAYERGB8" then some .bayerGB
  else if strContains u "BAYERGR8" then some .bayerGR
  else if strContains u "BAYERBG8" then some .bayerBG
  else none

/-- An integer camera node (`CIntegerPtr`): capability flags, the
device-reported maximum, and the current value. -/
structure IntNode where
  writable : Bool
  readable : Bool
  maxV : Int
  value : Int
deriving DecidableEq, Repr

/-- A boolean camera node (`CBooleanPtr`). -/
structure BoolNode where
  writable : Bool
  value : Bool
deriving DecidableEq, Repr

/-- A floating-point camera node (`CFloatPtr`); values are embedded as
exact rationals (the script only compares and copies them). -/
structure FloatNode where
  writable : Bool
  readable : Bool
  maxV : Rat
  value : Rat
deriving DecidableEq, Repr

/-- The nodes `configure_camera_resolution_fps` touches. -/
structure CamState where
  width : IntNode
  height : IntNode
  offsetX : IntNode
  offsetY : IntNode
  fpsEnable : BoolNode
  fps : FloatNode
deriving DecidableEq, Repr

/-- The console messages the configuration routines print. -/
inductive Msg where
  | infoResolution (w h : Int)
  | warnSizeNotWritable
  | warnFpsEnableNotWritable
  | infoFrameRate (f : Rat)
  | warnFpsNotWritable
  | checkApplied (w h : Int) (f : Rat)
  | warnPixelFormatNotWritable
  | infoPixelFormatSet (name : String)
  | warnNoPreferredFormat
deriving DecidableEq, Repr

/-
`configure_camera_resolution_fps` (lab2-2, lines 131-205) is embedded as
four step functions composed in source order: clamp width/height to the
device maxima and force them even when both nodes are writable (warn
otherwise); centre the offsets when both offset nodes are writable
(silently skipped otherwise); enable and clamp the frame rate with
warnings for non-writable nodes; finally read back whatever is readable,
reporting -1 sentinels for the rest. The Python operators `%` and `//` are embedded
as `Int.emod` and `Int.fdiv` (both agree with Python on all signs). Node
writes themselves are modelled as plain state updates; SDK-side range
validation inside `SetValue` is not modelled.
-/

/-- The width/height chunk of `configure_camera_resolution_fps`
(lab2-2, lines 146-168). -/
def sizeStep (width height : Int) (s : CamState) : CamState × List Msg :=
  if s.width.writable && s.height.writable then
    let w0 := min width s.width.maxV
    let h0 := min height s.height.maxV
    let w := if w0.emod 2 == 1 then w0 - 1 else w0
    let h := if h0.emod 2 == 1 then h0 - 1 else h0
    ({ s with width := { s.width with value := w },
              height := { s.height with value := h } },
     [.infoResolution w h])
  else
    (s, [.warnSizeNotWritable])

/-- The offset-centering chunk of `configure_camera_resolution_fps`
(lab2-2, lines 170-183): best effort, no message in either branch. -/
def offsetStep (s : CamState) : CamState :=
  if s.offsetX.writable && s.offsetY.writable then
    { s with offsetX := { s.offsetX with value := s.offsetX.maxV.fdiv 2 },
             offsetY := { s.offsetY with value := s.offsetY.maxV.fdiv 2 } }
  else s

/-- The `AcquisitionFrameRateEnable` chunk (lab2-2, lines 185-190). -/
def enableStep (s : CamState) : CamState × List Msg :=
  if s.fpsEnable.writable then
    ({ s with fpsEnable := { s.fpsEnable with value := true } }, [])
  else
    (s, [.warnFpsEnableNotWritable])

/-- The `AcquisitionFrameRate` chunk (lab2-2, lines 192-199). -/
def fpsStep (fps : Rat) (s : CamState) : CamState × List Msg :=
  if s.fps.writable then
    let f := min fps s.fps.maxV
    ({ s with fps := { s.fps with value := f } }, [.infoFrameRate f])
  else
    (s, [.warnFpsNotWritable])

/-- The full routine: the four chunks in source order, then the readback
report with -1 sentinels for unreadable nodes. -/
def configure_camera_resolution_fps (width height : Int) (fps : Rat) (s : CamState) :
    CamState × List Msg :=
  let a := sizeStep width height s
  let s2 := offsetStep a.1
  let b := enableStep s2
  let c := fpsStep fps b.1
  let s4 := c.1
  let cw := if s4.width.readable then s4.width.value else -1
  let ch := if s4.height.readable then s4.height.value else -1
  let cf := if s4.fps.readable then s4.fps.value else (-1 : Rat)
  (s4, a.2 ++ b.2 ++ c.2 ++ [.checkApplied cw ch cf])

/-! Projection facts for the configuration steps. -/

theorem configure_fst (w h : Int) (f : Rat) (s : CamState) :
    (configure_camera_resolution_fps w h f s).1 =
      (fpsStep f (enableStep (offsetStep (sizeStep w h s).1)).1).1 := rfl

theorem configure_snd (w h : Int) (f : Rat) (s : CamState) :
    (configure_camera_resolution_fps w h f s).2 =
      (sizeStep w h s).2 ++ (enableStep (offsetStep (sizeStep w h s).1)).2
        ++ (fpsStep f (enableStep (offsetStep (sizeStep w h s).1)).1).2
        ++ [.checkApplied
              (if (fpsStep f (enableStep (offsetStep (sizeStep w h s).1)).1).1.width.readable
               then (fpsStep f (enableStep (offsetStep (sizeStep w h s).1)).1).1.width.value
               else -1)
              (if (fpsStep f (enableStep (offsetStep (sizeStep w h s).1)).1).1.height.readable
               then (fpsStep f (enableStep (offsetStep (sizeStep w h s).1)).1).1.height.value
               else -1)
              (if (fpsStep f (enableStep (offsetStep (sizeStep w h s).1)).1).1.fps.readable
               then (fpsStep f (enableStep (offsetStep (sizeStep w h s).1)).1).1.fps.value
               else (-1 : Rat))] := rfl

theorem sizeStep_offsetX (w h : Int) (s : CamState) :
    (sizeStep w h s).1.offsetX = s.offsetX := by
  unfold sizeStep; split <;> rfl

theorem sizeStep_offsetY (w h : Int) (s : CamState) :
    (sizeStep w h s).1.offsetY = s.offsetY := by
  unfold sizeStep; split <;> rfl

theorem sizeStep_fpsEnable (w h : Int) (s : CamState) :
    (sizeStep w h s).1.fpsEnable = s.fpsEnable := by
  unfold sizeStep; split <;> rfl

theorem sizeStep_fps (w h : Int) (s : CamState) :
    (sizeStep w h s).1.fps = s.fps := by
  unfold sizeStep; split <;> rfl

theorem sizeStep_congr (w h : Int) (t s : CamState)
    (h1 : t.width = s.width) (h2 : t.height = s.height) :
    (sizeStep w h t).1.width = (sizeStep w h s).1.width
    ∧ (sizeStep w h t).1.height = (sizeStep w h s).1.height
    ∧ (sizeStep w h t).2 = (sizeStep w h s).2 := by
  cases hc : s.width.writable && s.height.writable <;>
    simp [sizeStep, h1, h2, hc]

theorem offsetStep_width (s : CamState) : (offsetStep s).width = s.width := by
  unfold offsetStep; split <;> rfl

theorem offsetStep_height (s : CamState) : (offsetStep s).height = s.height := by
  unfold offsetStep; split <;> rfl

theorem offsetStep_fpsEnable (s : CamState) : (offsetStep s).fpsEnable = s.fpsEnable := by
  unfold offsetStep; split <;> rfl

theorem offsetStep_fps (s : CamState) : (offsetStep s).fps = s.fps := by
  unfold offsetStep; split <;> rfl

theorem offsetStep_offsetX_of_writable (s : CamState)
    (hx : s.offsetX.writable = true) (hy : s.offsetY.writable = true) :
    (offsetStep s).offsetX = { s.offsetX with value := s.offsetX.maxV.fdiv 2 } := by
  simp [offsetStep, hx, hy]

theorem offsetStep_offsetY_of_writable (s : CamState)
    (hx : s.offsetX.writable = true) (hy : s.offsetY.writable = true) :
    (offsetStep s).offsetY = { s.offsetY with value := s.offsetY.maxV.fdiv 2 } := by
  simp [offsetStep, hx, hy]

theorem offsetStep_of_not_writable (s : CamState)
    (h : (s.offsetX.writable && s.offsetY.writable) = false) :
    offsetStep s = s := by
  simp [offsetStep, h]

theorem enableStep_width (s : CamState) : (enableStep s).1.width = s.width := by
  unfold enableStep; split <;> rfl

theorem enableStep_height (s : CamState) : (enableStep s).1.height = s.height := by
  unfold enableStep; split <;> rfl

theorem enableStep_offsetX (s : CamState) : (enableStep s).1.offsetX = s.offsetX := by
  unfold enableStep; split <;> rfl

theorem enableStep_offsetY (s : CamState) : (enableStep s).1.offsetY = s.offsetY := by
  unfold enableStep; split <;> rfl

theorem enableStep_fps (s : CamState) : (enableStep s).1.fps = s.fps := by
  unfold enableStep; split <;> rfl

theorem enableStep_snd (s : CamState) :
    (enableStep s).2 = if s.fpsEnable.writable then [] else [.warnFpsEnableNotWritable] := by
  unfold enableStep; split <;> simp_all

theorem fpsStep_width (f : Rat) (s : CamState) : (fpsStep f s).1.width = s.width := by
  unfold fpsStep; split <;> rfl

theorem fpsStep_height (f : Rat) (s : CamState) : (fpsStep f s).1.height = s.height := by
  unfold fpsStep; split <;> rfl

theorem fpsStep_offsetX (f : Rat) (s : CamState) : (fpsStep f s).1.offsetX = s.offsetX := by
  unfold fpsStep; split <;> rfl

theorem fpsStep_offsetY (f : Rat) (s : CamState) : (fpsStep f s).1.offsetY = s.offsetY := by
  unfold fpsStep; split <;> rfl

theorem fpsStep_fps (f : Rat) (s : CamState) :
    (fpsStep f s).1.fps =
      if s.fps.writable then { s.fps with value := min f s.fps.maxV } else s.fps := by
  unfold fpsStep; split <;> simp_all

theorem fpsStep_snd (f : Rat) (s : CamState) :
    (fpsStep f s).2 =
      if s.fps.writable then [.infoFrameRate (min f s.fps.maxV)] else [.warnFpsNotWritable] := by
  unfold fpsStep; split <;> simp_all

/-- The negotiated size exactly as the specification words it: the request
clamped to the interval from 0 to the device maximum, then decremented by
one if odd. -/
def spec_negotiate (req maxV : Int) : Int :=
  let c := max 0 (min req maxV)
  if c.emod 2 == 1 then c - 1 else c

/-- The negotiated size as the code computes it: `min` against the device
maximum only, then decremented by one if odd. -/
def code_negotiate (req maxV : Int) : Int :=
  let c := min req maxV
  if c.emod 2 == 1 then c - 1 else c

/-- An entry of the `PixelFormat` enumeration node. -/
structure EnumEntry where
  readable : Bool
  value : Int
deriving DecidableEq, Repr

/-- The `PixelFormat` enumeration node: writability, the named entries the
device exposes, and the currently selected integer value. -/
structure PixelFormatEnum where
  writable : Bool
  entries : List (String × EnumEntry)
  current : Int
deriving DecidableEq, Repr

/-- `GetEntryByName`: look the entry up; an absent name yields an invalid
handle, on which `IsReadable` is false. -/
def getEntryByName (e : PixelFormatEnum) (n : String) : Option EnumEntry :=
  (e.entries.find? (fun p => p.1 == n)).map (fun p => p.2)

/-- The preference order hard-coded in `set_pixel_format`. -/
def preferredFormats : List String := ["RGB8Packed", "BGR8", "Mono8"]

/-- The loop body of `set_pixel_format`: the first candidate name whose
enumeration entry is readable, with its value. -/
def firstReadableFormat (e : PixelFormatEnum) : List String → Option (String × Int)
  | [] => none
  | n :: rest =>
    match getEntryByName e n with
    | some en => if en.readable then some (n, en.value) else firstReadableFormat e rest
    | none => firstReadableFormat e rest

/-- Embedding of `set_pixel_format` (identical in both scripts): if the
enumeration node is not writable, warn and leave the format; otherwise
select the first preferred candidate with a readable entry; if none is
readable, warn and leave the format. -/
def set_pixel_format (e : PixelFormatEnum) : PixelFormatEnum × List Msg :=
  if !e.writable then
    (e, [.warnPixelFormatNotWritable])
  else
    match firstReadableFormat e preferredFormats with
    | some (n, v) => ({ e with current := v }, [.infoPixelFormatSet n])
    | none => (e, [.warnNoPreferredFormat])

/-- Externally visible events of the capture flows: resource operations,
per-frame handling and console reports. -/
inductive Ev where
  | makeDirs (dir : String)
  | errNoCameras
  | initCam
  | acqModeError
  | beginAcq
  | fetchAttempt
  | fetchOk
  | warnIncomplete (status : Nat)
  | convertOk
  | convertRaised
  | releaseFrame
  | annotate
  | save (idx : Nat) (path : String)
  | showFrame
  | quitKey
  | endAcqOk
  | endAcqFailedIgnored
  | deInitOk
  | deInitRaised
  | clearListRaised
  | clearList
  | releaseInstanceRaised
  | releaseInstance
  | destroyWindows
  | errAcquireFailed
  | saveSingle (path : String)
deriving DecidableEq, Repr

/-- How one `cam.GetNextImage` call behaves. -/
inductive FetchOutcome where
  | ok (f : RawFrame)
  | err
deriving DecidableEq, Repr

/-- One iteration of external behaviour: the fetch outcome and whether the
user presses the quit key when this frame is displayed. -/
structure LoopInput where
  fetched : FetchOutcome
  keyQ : Bool
deriving DecidableEq, Repr

/-- How a run ends abnormally. -/
inductive RunErr where
  | fetchFailed
  | convertFailed (e : CvErr)
  | teardownFailed
deriving DecidableEq, Repr

/-- `IsReadable` applied to the result of `GetEntryByName`: false on an
absent entry (invalid handle). -/
def entryReadable (o : Option EnumEntry) : Bool :=
  match o with
  | some en => en.readable
  | none => false

/-- The saved-file path built in the loop:
`os.path.join(output_dir, f"frame_{timestamp}_{frame_count:06d}.png")`.
`ts` stands for `time.strftime("%Y%m%d_%H%M%S")` evaluated when frame
number `idx` is saved. -/
def frameFilename (ts : Nat → String) (dir : String) (idx : Nat) : String :=
  dir ++ "/" ++ "frame_" ++ ts idx ++ "_" ++ pad6 idx ++ ".png"

/-- Embedding of the while-loop of `realtime_view_and_save` (lab2-2,
lines 293-335), as a function from the list of per-iteration behaviours
to the event trace and the abnormal outcome, carrying `frame_count`.
An incomplete frame is warned about, released and skipped; a complete
frame is converted, released, annotated, saved when the incremented count
is a multiple of `saveN`, and shown; a fetch failure or a conversion
failure aborts the loop at once (the conversion failure before the
release call). An exhausted input list ends the loop (a finite-behaviour
stand-in for the unbounded loop). -/
def loopRun (saveN : Nat) (dir : String) (ts : Nat → String) :
    List LoopInput → Nat → List Ev × Option RunErr
  | [], _ => ([], none)
  | inp :: rest, count =>
    match inp.fetched with
    | .err => ([.fetchAttempt], some .fetchFailed)
    | .ok f =>
      if f.incomplete then
        let r := loopRun saveN dir ts rest count
        ([.fetchAttempt, .fetchOk, .warnIncomplete f.status, .releaseFrame] ++ r.1, r.2)
      else
        match convert_image_to_bgr f with
        | .error e => ([.fetchAttempt, .fetchOk, .convertRaised], some (.convertFailed e))
        | .ok _ =>
          let count' := count + 1
          let saveEvs :=
            if count' % saveN == 0 then [Ev.save count' (frameFilename ts dir count')] else []
          let iterEvs :=
            [.fetchAttempt, .fetchOk, .convertOk, .releaseFrame, .annotate]
              ++ saveEvs ++ [Ev.showFrame]
          if inp.keyQ then
            (iterEvs ++ [.quitKey], none)
          else
            let r := loopRun saveN dir ts rest count'
            (iterEvs ++ r.1, r.2)

/-- Which teardown steps raise a `SpinnakerException` when attempted. -/
structure TeardownBehavior where
  endAcqRaises : Bool
  deInitRaises : Bool
  clearRaises : Bool
  releaseRaises : Bool
deriving DecidableEq, Repr

/-- Embedding of the `finally` block of `realtime_view_and_save` (lab2-2,
lines 337-350): `EndAcquisition` inside `try/except SpinnakerException:
pass`, then `DeInit`, `cam_list.Clear`, `system.ReleaseInstance` and
`cv2.destroyAllWindows`, none of which is guarded — a raise in any of
them propagates (second component `true`) and skips the rest. -/
def teardown (b : TeardownBehavior) : List Ev × Bool :=
  let e1 := if b.endAcqRaises then [Ev.endAcqFailedIgnored] else [Ev.endAcqOk]
  if b.deInitRaises then (e1 ++ [.deInitRaised], true)
  else
    let e2 := e1 ++ [Ev.deInitOk]
    if b.clearRaises then (e2 ++ [.clearListRaised], true)
    else
      let e3 := e2 ++ [Ev.clearList]
      if b.releaseRaises then (e3 ++ [.releaseInstanceRaised], true)
      else (e3 ++ [Ev.releaseInstance, Ev.destroyWindows], false)

/-- The behaviour of the device and environment for one realtime run. -/
structure RealtimeDevice where
  numCameras : Nat
  acqModeWritable : Bool
  inputs : List LoopInput
  td : TeardownBehavior
deriving DecidableEq, Repr

/-- Embedding of `realtime_view_and_save` (lab2-2, lines 231-350): create
the output directory, release list and session at once when no camera is
enumerated, otherwise initialize the camera, start continuous acquisition
(`start_continuous_mode` returns without `BeginAcquisition`, printing an
error, when `AcquisitionMode` is not writable), run the loop, and always
run the `finally` teardown; an exception raised inside the teardown
replaces the outcome of the loop. The node-configuration calls the script
performs before the loop are modelled by `set_pixel_format` and
`configure_camera_resolution_fps` separately (both are total) and their
console output is not part of this trace. -/
def realtime_view_and_save (saveN : Nat) (dir : String) (ts : Nat → String)
    (dev : RealtimeDevice) : List Ev × Option RunErr :=
  let pre := [Ev.makeDirs dir]
  if dev.numCameras == 0 then
    (pre ++ [Ev.errNoCameras, Ev.clearList, Ev.releaseInstance], none)
  else
    let startEvs := if dev.acqModeWritable then [Ev.initCam, Ev.beginAcq]
                    else [Ev.initCam, Ev.acqModeError]
    let body := loopRun saveN dir ts dev.inputs 0
    let td := teardown dev.td
    (pre ++ startEvs ++ body.1 ++ td.1,
     if td.2 then some .teardownFailed else body.2)

/-- The device behaviour seen by `acquire_single_frame`. -/
structure SingleDevice where
  acqModeWritable : Bool
  fetched : FetchOutcome
deriving DecidableEq, Repr

/-- Embedding of `acquire_single_frame` (lab2-1, lines 122-158): refuse
(returning `none`) when `AcquisitionMode` is not writable; otherwise
begin acquisition and fetch one frame inside `try/finally
EndAcquisition`. An incomplete frame is warned about, released and `none`
is returned; a conversion failure propagates after the `finally` (the
release call is skipped); otherwise the frame is released and returned. -/
def acquire_single_frame (d : SingleDevice) : Option Img × List Ev × Option RunErr :=
  if !d.acqModeWritable then (none, [Ev.acqModeError], none)
  else
    match d.fetched with
    | .err => (none, [Ev.beginAcq, Ev.fetchAttempt, Ev.endAcqOk], some .fetchFailed)
    | .ok f =>
      if f.incomplete then
        (none,
         [Ev.beginAcq, Ev.fetchAttempt, Ev.fetchOk, Ev.warnIncomplete f.status,
          Ev.releaseFrame, Ev.endAcqOk],
         none)
      else
        match convert_image_to_bgr f with
        | .error e =>
          (none, [Ev.beginAcq, Ev.fetchAttempt, Ev.fetchOk, Ev.convertRaised, Ev.endAcqOk],
           some (.convertFailed e))
        | .ok r =>
          (some r.out,
           [Ev.beginAcq, Ev.fetchAttempt, Ev.fetchOk, Ev.convertOk, Ev.releaseFrame,
            Ev.endAcqOk],
           none)

/-- The behaviour of the device for one single-frame run. -/
structure SingleRunDevice where
  numCameras : Nat
  dev : SingleDevice
deriving DecidableEq, Repr

/-- Embedding of `lab2_single_frame` (lab2-1, lines 161-208): release
list and session at once when no camera is enumerated; otherwise
initialize, acquire one frame, report `[ERROR] Failed to acquire single
frame.` and save nothing when the acquisition returned `None`, save the
frame otherwise, and always run the `finally` teardown (`DeInit`, clear,
release; all modelled as succeeding here). -/
def lab2_single_frame (d : SingleRunDevice) (outPath : String) : List Ev × Option RunErr :=
  if d.numCameras == 0 then
    ([Ev.errNoCameras, Ev.clearList, Ev.releaseInstance], none)
  else
    let a := acquire_single_frame d.dev
    let body : List Ev × Option RunErr :=
      match a.2.2 with
      | some e => (Ev.initCam :: a.2.1, some e)
      | none =>
        match a.1 with
        | none => (Ev.initCam :: a.2.1 ++ [Ev.errAcquireFailed], none)
        | some _ => (Ev.initCam :: a.2.1 ++ [Ev.saveSingle outPath], none)
    (body.1 ++ [Ev.deInitOk, Ev.clearList, Ev.releaseInstance], body.2)

/-- The save events of a trace, with the frame count each carries. -/
def savesOf (evs : List Ev) : List (Nat × String) :=
  evs.filterMap (fun e => match e with | .save i p => some (i, p) | _ => none)

/-- How many times an event occurs in a trace. -/
def countEv (evs : List Ev) (e : Ev) : Nat :=
  evs.count e

/-! ## Concrete fixtures -/

/-- A 1-by-1, 3-channel frame declared `BGR8`. -/
def bgrFrame : RawFrame := ⟨.multi [[[1, 2, 3]]], some "BGR8", 0, false, 0⟩

/-- A 2-by-2 single-plane frame declared `Mono8`, complete. -/
def goodFrame : RawFrame := ⟨.gray [[5, 6], [7, 8]], some "Mono8", 0, false, 0⟩

/-- A frame flagged incomplete (status 3). -/
def incompleteFrame : RawFrame := ⟨.gray [[5]], some "Mono8", 0, true, 3⟩

/-- A complete 1-by-1 frame in the real Spinnaker format `BGRa8`: the
buffer has 4 channels and the name matches no clause of the dispatch
chain, so the shape fallback hands a 4-channel buffer to `RGB2BGR`. -/
def bgra8Frame : RawFrame := ⟨.multi [[[10, 20, 30, 40]]], some "BGRa8", 0, false, 0⟩

/-- A complete 2-pixel 4-channel frame whose format name accessor is
absent. -/
def noNameFourChannelFrame : RawFrame := ⟨.multi [[[1, 2, 3, 4], [5, 6, 7, 8]]], none, 77, false, 0⟩

/-- A single-plane frame with the unrecognized (but present) name `YUV8`. -/
def yuvFrame : RawFrame := ⟨.gray [[9, 9], [9, 9]], some "YUV8", 0, false, 0⟩

/-- A camera state with every node writable and readable; size maxima 100,
offset maxima 10 and 20, frame-rate maximum 60. -/
def camStateAllWritable : CamState :=
  ⟨⟨true, true, 100, 0⟩, ⟨true, true, 100, 0⟩, ⟨true, true, 10, 0⟩, ⟨true, true, 20, 0⟩,
   ⟨true, false⟩, ⟨true, true, 60, 0⟩⟩

/-- The same camera state with both offset nodes read-only. -/
def camStateOffsetsReadOnly : CamState :=
  ⟨⟨true, true, 100, 0⟩, ⟨true, true, 100, 0⟩, ⟨false, true, 10, 0⟩, ⟨false, true, 20, 0⟩,
   ⟨true, false⟩, ⟨true, true, 60, 0⟩⟩

/-- A writable pixel-format enumeration on which `RGB8Packed` is listed
but unreadable, `BGR8` is readable and `Mono8` is absent. -/
def pfEnumBgr : PixelFormatEnum :=
  ⟨true, [("RGB8Packed", ⟨false, 1⟩), ("BGR8", ⟨true, 7⟩)], 0⟩

/-- All four teardown steps succeed. -/
def tdOk : TeardownBehavior := ⟨false, false, false, false⟩

/-- A fixed wall-clock reading for concrete runs. -/
def tsFixed : Nat → String := fun _ => "20250101_120000"

/-! ## C7 -/

/-- C7: normalizing a frame whose format tag reaches the `BGR8` clause of
the ordered dispatch (it contains `BGR8` and contains neither `MONO8` nor
`RGB8`) is the identity: the returned buffer is the input buffer itself,
no conversion is applied, and no diagnostic is emitted. -/
theorem C7_bgr_passthrough_identity (f : RawFrame) (name : String)
    (h1 : f.fmtName = some name)
    (h2 : strContains (strUpper name) "MONO8" = false)
    (h3 : strContains (strUpper name) "RGB8" = false)
    (h4 : strContains (strUpper name) "BGR8" = true) :
    convert_image_to_bgr f = .ok ⟨f.img, .bgrPass, false⟩ := by
  unfold convert_image_to_bgr
  rw [h1]
  simp [h2, h3, h4]

/-- Witness for C7 at the canonical tag `BGR8` on a concrete 3-channel
frame. -/
theorem C7_bgr_passthrough_identity_witness :
    strContains (strUpper "BGR8") "MONO8" = false ∧
    strContains (strUpper "BGR8") "RGB8" = false ∧
    strContains (strUpper "BGR8") "BGR8" = true ∧
    convert_image_to_bgr bgrFrame = .ok ⟨bgrFrame.img, .bgrPass, false⟩ :=
  ⟨by decide, by decide, by decide,
   C7_bgr_passthrough_identity bgrFrame "BGR8" rfl (by decide) (by decide) (by decide)⟩

/-! ## C10 -/

/-- A candidate whose entry is unreadable (or absent) is skipped. -/
theorem firstReadableFormat_skip (e : PixelFormatEnum) (n : String) (rest : List String)
    (h : entryReadable (getEntryByName e n) = false) :
    firstReadableFormat e (n :: rest) = firstReadableFormat e rest := by
  cases hf : getEntryByName e n with
  | none => simp [firstReadableFormat, hf]
  | some en =>
    rw [hf] at h
    simp only [entryReadable] at h
    simp [firstReadableFormat, hf, h]

/-- A candidate with a readable entry is selected. -/
theorem firstReadableFormat_hit (e : PixelFormatEnum) (n : String) (rest : List String)
    (en : EnumEntry) (hf : getEntryByName e n = some en) (hr : en.readable = true) :
    firstReadableFormat e (n :: rest) = some (n, en.value) := by
  simp [firstReadableFormat, hf, hr]

/-- C10: `set_pixel_format` probes `RGB8Packed`, `BGR8`, `Mono8` in that
order and writes the value of the first candidate whose enumeration entry
is readable; a non-writable enumeration node, or no readable candidate,
leaves the current format unchanged and emits only a warning. -/
theorem C10_pixel_format_selection (e : PixelFormatEnum) :
    (e.writable = false →
       set_pixel_format e = (e, [.warnPixelFormatNotWritable]))
    ∧ (e.writable = true →
       ∀ en, getEntryByName e "RGB8Packed" = some en → en.readable = true →
         set_pixel_format e = ({ e with current := en.value }, [.infoPixelFormatSet "RGB8Packed"]))
    ∧ (e.writable = true →
       entryReadable (getEntryByName e "RGB8Packed") = false →
       ∀ en, getEntryByName e "BGR8" = some en → en.readable = true →
         set_pixel_format e = ({ e with current := en.value }, [.infoPixelFormatSet "BGR8"]))
    ∧ (e.writable = true →
       entryReadable (getEntryByName e "RGB8Packed") = false →
       entryReadable (getEntryByName e "BGR8") = false →
       ∀ en, getEntryByName e "Mono8" = some en → en.readable = true →
         set_pixel_format e = ({ e with current := en.value }, [.infoPixelFormatSet "Mono8"]))
    ∧ (e.writable = true →
       entryReadable (getEntryByName e "RGB8Packed") = false →
       entryReadable (getEntryByName e "BGR8") = false →
       entryReadable (getEntryByName e "Mono8") = false →
         set_pixel_format e = (e, [.warnNoPreferredFormat])) := by
  refine ⟨?_, ?_, ?_, ?_, ?_⟩
  · intro hw
    simp [set_pixel_format, hw]
  · intro hw en hen hr
    rw [set_pixel_format, preferredFormats]
    rw [firstReadableFormat_hit e _ _ en hen hr]
    simp [hw]
  · intro hw h1 en hen hr
    rw [set_pixel_format, preferredFormats]
    rw [firstReadableFormat_skip e _ _ h1, firstReadableFormat_hit e _ _ en hen hr]
    simp [hw]
  · intro hw h1 h2 en hen hr
    rw [set_pixel_format, preferredFormats]
    rw [firstReadableFormat_skip e _ _ h1, firstReadableFormat_skip e _ _ h2,
        firstReadableFormat_hit e _ _ en hen hr]
    simp [hw]
  · intro hw h1 h2 h3
    rw [set_pixel_format, preferredFormats]
    rw [firstReadableFormat_skip e _ _ h1, firstReadableFormat_skip e _ _ h2,
        firstReadableFormat_skip e _ _ h3]
    simp [hw, firstReadableFormat]

/-- Witness for C10: a writable enumeration with an unreadable
`RGB8Packed` entry and a readable `BGR8` entry selects `BGR8`. -/
theorem C10_pixel_format_selection_witness :
    pfEnumBgr.writable = true ∧
    entryReadable (getEntryByName pfEnumBgr "RGB8Packed") = false ∧
    getEntryByName pfEnumBgr "BGR8" = some ⟨true, 7⟩ ∧
    set_pixel_format pfEnumBgr =
      ({ pfEnumBgr with current := 7 }, [.infoPixelFormatSet "BGR8"]) :=
  ⟨rfl, by decide, by decide,
   (C10_pixel_format_selection pfEnumBgr).2.2.1 rfl (by decide) ⟨true, 7⟩ (by decide) rfl⟩

/-! ## C9 -/

/-- C9: when both offset nodes are writable, `configure_camera_resolution_fps`
centres the region by writing `max // 2` (floor division) per axis;
when they are not both writable the offset nodes are left untouched; and
the console output of the routine is independent of the offset nodes
altogether, so the skip is silent — no error and no warning. -/
theorem C9_offset_centering (width height : Int) (fps : Rat) (s : CamState) :
    (s.offsetX.writable = true → s.offsetY.writable = true →
       (configure_camera_resolution_fps width height fps s).1.offsetX.value =
           s.offsetX.maxV.fdiv 2
       ∧ (configure_camera_resolution_fps width height fps s).1.offsetY.value =
           s.offsetY.maxV.fdiv 2)
    ∧ ((s.offsetX.writable && s.offsetY.writable) = false →
       (configure_camera_resolution_fps width height fps s).1.offsetX = s.offsetX
       ∧ (configure_camera_resolution_fps width height fps s).1.offsetY = s.offsetY)
    ∧ (∀ t : CamState, t.width = s.width → t.height = s.height →
       t.fpsEnable = s.fpsEnable → t.fps = s.fps →
       (configure_camera_resolution_fps width height fps t).2 =
         (configure_camera_resolution_fps width height fps s).2) := by
  refine ⟨?_, ?_, ?_⟩
  · intro hx hy
    rw [configure_fst, fpsStep_offsetX, fpsStep_offsetY, enableStep_offsetX, enableStep_offsetY]
    rw [offsetStep_offsetX_of_writable _ (by rw [sizeStep_offsetX]; exact hx)
          (by rw [sizeStep_offsetY]; exact hy),
        offsetStep_offsetY_of_writable _ (by rw [sizeStep_offsetX]; exact hx)
          (by rw [sizeStep_offsetY]; exact hy)]
    rw [sizeStep_offsetX, sizeStep_offsetY]
    exact ⟨rfl, rfl⟩
  · intro hxy
    rw [configure_fst, fpsStep_offsetX, fpsStep_offsetY, enableStep_offsetX, enableStep_offsetY]
    rw [offsetStep_of_not_writable _ (by rw [sizeStep_offsetX, sizeStep_offsetY]; exact hxy)]
    rw [sizeStep_offsetX, sizeStep_offsetY]
    exact ⟨rfl, rfl⟩
  · intro t h1 h2 h3 h4
    have hs := sizeStep_congr width height t s h1 h2
    rw [configure_snd, configure_snd, hs.2.2]
    rw [enableStep_snd, enableStep_snd, fpsStep_snd, fpsStep_snd]
    rw [fpsStep_width, fpsStep_width, fpsStep_height, fpsStep_height,
        fpsStep_fps, fpsStep_fps]
    rw [enableStep_width, enableStep_width, enableStep_height, enableStep_height,
        enableStep_fps, enableStep_fps]
    rw [offsetStep_width, offsetStep_width, offsetStep_height, offsetStep_height,
        offsetStep_fps, offsetStep_fps, offsetStep_fpsEnable, offsetStep_fpsEnable]
    rw [sizeStep_fps, sizeStep_fps, sizeStep_fpsEnable, sizeStep_fpsEnable]
    rw [hs.1, hs.2.1, h3, h4]

/-- Witness for C9: with device-maximum offsets (10, 20) and writable
offset nodes the negotiated offsets are (5, 10), and making the offset
nodes read-only changes none of the printed messages. -/
theorem C9_offset_centering_witness :
    ((configure_camera_resolution_fps 1280 720 30 camStateAllWritable).1.offsetX.value = 5
     ∧ (configure_camera_resolution_fps 1280 720 30 camStateAllWritable).1.offsetY.value = 10)
    ∧ (configure_camera_resolution_fps 1280 720 30 camStateOffsetsReadOnly).2 =
        (configure_camera_resolution_fps 1280 720 30 camStateAllWritable).2 := by
  have h := C9_offset_centering 1280 720 30 camStateAllWritable
  refine ⟨⟨(h.1 rfl rfl).1.trans (by decide), (h.1 rfl rfl).2.trans (by decide)⟩, ?_⟩
  exact h.2.2 camStateOffsetsReadOnly rfl rfl rfl rfl

/-! ## C4 -/

/-- C4 counterexample: the code clamps a requested size only from above
(`min` against the device maximum); there is no clamp to 0. At the
in-range request −1 (odd, because the Python modulo is nonnegative), the code
negotiates −2, while the claimed clamp-to-`[0, max]`-then-decrement rule
yields 0. -/
theorem C4_no_lower_clamp_counterexample :
    (configure_camera_resolution_fps (-1) (-1) 30 camStateAllWritable).1.width.value = -2
    ∧ spec_negotiate (-1) camStateAllWritable.width.maxV = 0
    ∧ (configure_camera_resolution_fps (-1) (-1) 30 camStateAllWritable).1.width.value ≠
        spec_negotiate (-1) camStateAllWritable.width.maxV := by
  decide

/-- C4 amended: when both size nodes are writable the negotiated value is
`min(request, device-max)` then decremented by one if odd — which agrees
with the claimed clamp-to-`[0, max]` rule whenever the request and the
device maximum are nonnegative; in particular a request above the device
maximum negotiates the maximum rounded down to even, and an odd request
at most the maximum negotiates request − 1. When either size node is not
writable both nodes are left untouched and a warning is reported. -/
theorem C4_amended_negotiation (width height : Int) (fps : Rat) (s : CamState) :
    ((s.width.writable && s.height.writable) = true →
       (configure_camera_resolution_fps width height fps s).1.width.value =
           code_negotiate width s.width.maxV
       ∧ (configure_camera_resolution_fps width height fps s).1.height.value =
           code_negotiate height s.height.maxV)
    ∧ (∀ req maxV : Int, 0 ≤ req → 0 ≤ maxV →
         code_negotiate req maxV = spec_negotiate req maxV)
    ∧ (∀ req maxV : Int, maxV < req →
         code_negotiate req maxV = (if maxV.emod 2 == 1 then maxV - 1 else maxV))
    ∧ (∀ req maxV : Int, req.emod 2 = 1 → req ≤ maxV →
         code_negotiate req maxV = req - 1)
    ∧ ((s.width.writable && s.height.writable) = false →
       (configure_camera_resolution_fps width height fps s).1.width = s.width
       ∧ (configure_camera_resolution_fps width height fps s).1.height = s.height
       ∧ Msg.warnSizeNotWritable ∈ (configure_camera_resolution_fps width height fps s).2) := by
  refine ⟨?_, ?_, ?_, ?_, ?_⟩
  · intro hw
    rw [configure_fst, fpsStep_width, fpsStep_height, enableStep_width, enableStep_height,
        offsetStep_width, offsetStep_height]
    constructor
    · simp [sizeStep, code_negotiate, hw]
    · simp [sizeStep, code_negotiate, hw]
  · intro req maxV h1 h2
    have hmin : (0 : Int) ≤ min req maxV := le_min h1 h2
    simp [code_negotiate, spec_negotiate, max_eq_right hmin]
  · intro req maxV h
    simp [code_negotiate, min_eq_right (le_of_lt h)]
  · intro req maxV hodd hle
    simp [code_negotiate, min_eq_left hle, hodd]
  · intro hw
    refine ⟨?_, ?_, ?_⟩
    · rw [configure_fst, fpsStep_width, enableStep_width, offsetStep_width]
      simp [sizeStep, hw]
    · rw [configure_fst, fpsStep_height, enableStep_height, offsetStep_height]
      simp [sizeStep, hw]
    · rw [configure_snd]
      simp [sizeStep, hw]

/-- Witness for C4: a request of 1281 by 99 against maxima 100: the width
conjunct applies with both nodes writable, an over-maximum request
negotiates the (even) maximum 100, and the odd in-range request 99
negotiates 98. -/
theorem C4_amended_negotiation_witness :
    (configure_camera_resolution_fps 1281 99 30 camStateAllWritable).1.width.value =
        code_negotiate 1281 camStateAllWritable.width.maxV
    ∧ code_negotiate 1281 (100 : Int) = 100
    ∧ code_negotiate 99 (100 : Int) = 99 - 1 :=
  ⟨((C4_amended_negotiation 1281 99 30 camStateAllWritable).1 (by decide)).1,
   by decide,
   (C4_amended_negotiation 1281 99 30 camStateAllWritable).2.2.2.1 99 100 (by decide)
     (by decide)⟩

/-! ## C3 -/

/-- The modelled demosaic has the same per-sample structure as the
grayscale expansion. -/
theorem demosaic_eq_expandGray (p : BayerPat) (m : List (List Nat)) :
    demosaic p m = expandGray m := rfl

/-- Shape of the grayscale expansion on a nonempty buffer. -/
theorem expandGray_shape (m : List (List Nat)) (hm : (Img.gray m).nonempty = true) :
    (Img.multi (expandGray m)).channels = 3
    ∧ (Img.multi (expandGray m)).rows = (Img.gray m).rows
    ∧ (Img.multi (expandGray m)).cols = (Img.gray m).cols := by
  cases m with
  | nil => simp [Img.nonempty, Img.rows] at hm
  | cons r rs =>
    cases r with
    | nil => simp [Img.nonempty, Img.cols] at hm
    | cons a as => simp [expandGray, Img.channels, Img.rows, Img.cols]

/-- Shape of the channel swap on a 3- or 4-channel buffer. -/
theorem swapRB_shape (m : List (List (List Nat)))
    (hc : Img.channels (.multi m) = 3 ∨ Img.channels (.multi m) = 4) :
    (Img.multi (swapRB m)).channels = 3
    ∧ (Img.multi (swapRB m)).rows = (Img.multi m).rows
    ∧ (Img.multi (swapRB m)).cols = (Img.multi m).cols := by
  cases m with
  | nil => simp [Img.channels] at hc
  | cons r rs =>
    cases r with
    | nil => simp [Img.channels] at hc
    | cons px pxs =>
      have hpx : px.length = 3 ∨ px.length = 4 := by simpa [Img.channels] using hc
      rcases px with _ | ⟨a, _ | ⟨b, _ | ⟨c, _ | ⟨d, _ | ⟨e5, tl⟩⟩⟩⟩⟩ <;>
        simp_all [swapRB, Img.channels, Img.rows, Img.cols]

/-- Every successful `cvtColor` result has 3 channels and the spatial
dimensions of the source. -/
theorem cvtColor_shape (img : Img) (code : CvCode) (out : Img)
    (h : cvtColor img code = .ok out) :
    out.channels = 3 ∧ out.rows = img.rows ∧ out.cols = img.cols := by
  by_cases hne : img.nonempty = true
  · cases img with
    | gray m =>
      cases code with
      | gray2bgr =>
        simp [cvtColor, hne] at h
        rw [← h]
        exact expandGray_shape m hne
      | rgb2bgr => simp [cvtColor, hne] at h
      | bayerRG2bgr =>
        simp [cvtColor, hne] at h
        rw [← h, demosaic_eq_expandGray]
        exact expandGray_shape m hne
      | bayerGB2bgr =>
        simp [cvtColor, hne] at h
        rw [← h, demosaic_eq_expandGray]
        exact expandGray_shape m hne
      | bayerGR2bgr =>
        simp [cvtColor, hne] at h
        rw [← h, demosaic_eq_expandGray]
        exact expandGray_shape m hne
      | bayerBG2bgr =>
        simp [cvtColor, hne] at h
        rw [← h, demosaic_eq_expandGray]
        exact expandGray_shape m hne
    | multi m =>
      cases code with
      | rgb2bgr =>
        by_cases hc3 : Img.channels (.multi m) = 3
        · simp [cvtColor, hne, hc3] at h
          rw [← h]
          exact swapRB_shape m (Or.inl hc3)
        · by_cases hc4 : Img.channels (.multi m) = 4
          · simp [cvtColor, hne, hc4] at h
            rw [← h]
            exact swapRB_shape m (Or.inr hc4)
          · simp [cvtColor, hne, hc3, hc4] at h
      | gray2bgr => simp [cvtColor, hne] at h
      | bayerRG2bgr => simp [cvtColor, hne] at h
      | bayerGB2bgr => simp [cvtColor, hne] at h
      | bayerGR2bgr => simp [cvtColor, hne] at h
      | bayerBG2bgr => simp [cvtColor, hne] at h
  · rw [Bool.not_eq_true] at hne
    simp [cvtColor, hne] at h

/-- C3: for every well-formed frame whose tag one of the seven dispatch
clauses recognizes, `convert_image_to_bgr` succeeds, takes exactly the
clause the ordered case-insensitive substring policy selects (`MONO8`
before `RGB8` before `BGR8` before the four 8-bit Bayer patterns, with
the pattern-specific demosaic), and produces a 3-channel buffer with the
spatial dimensions of the input. -/
theorem C3_ordered_dispatch_and_shape (f : RawFrame) (name : String)
    (h1 : f.fmtName = some name) (h2 : f.wf = true)
    (h3 : (spec_dispatch (strUpper name)).isSome = true) :
    ∃ r : ConvOut, convert_image_to_bgr f = .ok r
      ∧ some r.action = spec_dispatch (strUpper name)
      ∧ r.out.channels = 3
      ∧ r.out.rows = f.img.rows
      ∧ r.out.cols = f.img.cols := by
  have hwf := h2
  unfold RawFrame.wf at hwf
  rw [h1, Bool.and_eq_true] at hwf
  obtain ⟨hne, htag⟩ := hwf
  simp only [convert_image_to_bgr, h1]
  cases hm : strContains (strUpper name) "MONO8" with
  | true =>
    simp only [tagShapeOk, hm, if_true] at htag
    cases himg : f.img with
    | multi m => rw [himg] at htag; simp [Img.ndim] at htag
    | gray m =>
      rw [himg] at hne
      refine ⟨⟨.multi (expandGray m), .mono, false⟩, ?_, ?_, ?_, ?_, ?_⟩
      · simp [himg, cvtColor, hne, Except.map]
      · simp [spec_dispatch, hm]
      · exact (expandGray_shape m hne).1
      · exact (expandGray_shape m hne).2.1
      · exact (expandGray_shape m hne).2.2
  | false =>
    cases hr : strContains (strUpper name) "RGB8" with
    | true =>
      simp only [tagShapeOk, hm, hr, if_true, Bool.false_eq_true, if_false] at htag
      cases himg : f.img with
      | gray m => rw [himg] at htag; simp [Img.channels] at htag
      | multi m =>
        rw [himg] at htag hne
        have hc : Img.channels (.multi m) = 3 := by simpa using htag
        refine ⟨⟨.multi (swapRB m), .rgbSwap, false⟩, ?_, ?_, ?_, ?_, ?_⟩
        · simp [himg, cvtColor, hne, hc, Except.map]
        · simp [spec_dispatch, hm, hr]
        · exact (swapRB_shape m (Or.inl hc)).1
        · exact (swapRB_shape m (Or.inl hc)).2.1
        · exact (swapRB_shape m (Or.inl hc)).2.2
    | false =>
      cases hb : strContains (strUpper name) "BGR8" with
      | true =>
        simp only [tagShapeOk, hm, hr, hb, if_true, Bool.false_eq_true, if_false] at htag
        refine ⟨⟨f.img, .bgrPass, false⟩, ?_, ?_, ?_, rfl, rfl⟩
        · simp [hm, hr, hb]
        · simp [spec_dispatch, hm, hr, hb]
        · simpa using htag
      | false =>
        cases hb1 : strContains (strUpper name) "BAYERRG8" with
        | true =>
          simp only [tagShapeOk, hm, hr, hb, hb1, Bool.or_self, Bool.true_or, Bool.or_true,
            if_true, Bool.false_eq_true, if_false] at htag
          cases himg : f.img with
          | multi m => rw [himg] at htag; simp [Img.ndim] at htag
          | gray m =>
            rw [himg] at hne
            refine ⟨⟨.multi (demosaic .rg m), .bayerRG, false⟩, ?_, ?_, ?_, ?_, ?_⟩
            · simp [himg, cvtColor, hne, hm, hr, hb, hb1, Except.map]
            · simp [spec_dispatch, hm, hr, hb, hb1]
            · rw [demosaic_eq_expandGray]; exact (expandGray_shape m hne).1
            · rw [demosaic_eq_expandGray]; exact (expandGray_shape m hne).2.1
            · rw [demosaic_eq_expandGray]; exact (expandGray_shape m hne).2.2
        | false =>
          cases hb2 : strContains (strUpper name) "BAYERGB8" with
          | true =>
            simp only [tagShapeOk, hm, hr, hb, hb1, hb2, Bool.or_self, Bool.true_or,
              Bool.or_true, Bool.false_or, if_true, Bool.false_eq_true, if_false] at htag
            cases himg : f.img with
            | multi m => rw [himg] at htag; simp [Img.ndim] at htag
            | gray m =>
              rw [himg] at hne
              refine ⟨⟨.multi (demosaic .gb m), .bayerGB, false⟩, ?_, ?_, ?_, ?_, ?_⟩
              · simp [himg, cvtColor, hne, hm, hr, hb, hb1, hb2, Except.map]
              · simp [spec_dispatch, hm, hr, hb, hb1, hb2]
              · rw [demosaic_eq_expandGray]; exact (expandGray_shape m hne).1
              · rw [demosaic_eq_expandGray]; exact (expandGray_shape m hne).2.1
              · rw [demosaic_eq_expandGray]; exact (expandGray_shape m hne).2.2
          | false =>
            cases hb3 : strContains (strUpper name) "BAYERGR8" with
            | true =>
              simp only [tagShapeOk, hm, hr, hb, hb1, hb2, hb3, Bool.or_self, Bool.true_or,
                Bool.or_true, Bool.false_or, if_true, Bool.false_eq_true, if_false] at htag
              cases himg : f.img with
              | multi m => rw [himg] at htag; simp [Img.ndim] at htag
              | gray m =>
                rw [himg] at hne
                refine ⟨⟨.multi (demosaic .gr m), .bayerGR, false⟩, ?_, ?_, ?_, ?_, ?_⟩
                · simp [himg, cvtColor, hne, hm, hr, hb, hb1, hb2, hb3, Except.map]
                · simp [spec_dispatch, hm, hr, hb, hb1, hb2, hb3]
                · rw [demosaic_eq_expandGray]; exact (expandGray_shape m hne).1
                · rw [demosaic_eq_expandGray]; exact (expandGray_shape m hne).2.1
                · rw [demosaic_eq_expandGray]; exact (expandGray_shape m hne).2.2
            | false =>
              cases hb4 : strContains (strUpper name) "BAYERBG8" with
              | true =>
                simp only [tagShapeOk, hm, hr, hb, hb1, hb2, hb3, hb4, Bool.or_self,
                  Bool.true_or, Bool.or_true, Bool.false_or, if_true, Bool.false_eq_true,
                  if_false] at htag
                cases himg : f.img with
                | multi m => rw [himg] at htag; simp [Img.ndim] at htag
                | gray m =>
                  rw [himg] at hne
                  refine ⟨⟨.multi (demosaic .bg m), .bayerBG, false⟩, ?_, ?_, ?_, ?_, ?_⟩
                  · simp [himg, cvtColor, hne, hm, hr, hb, hb1, hb2, hb3, hb4, Except.map]
                  · simp [spec_dispatch, hm, hr, hb, hb1, hb2, hb3, hb4]
                  · rw [demosaic_eq_expandGray]; exact (expandGray_shape m hne).1
                  · rw [demosaic_eq_expandGray]; exact (expandGray_shape m hne).2.1
                  · rw [demosaic_eq_expandGray]; exact (expandGray_shape m hne).2.2
              | false =>
                simp [spec_dispatch, hm, hr, hb, hb1, hb2, hb3, hb4] at h3

/-- A 2-by-2 single-plane frame declared `BayerRG8`. -/
def bayerFrame : RawFrame := ⟨.gray [[5, 6], [7, 8]], some "BayerRG8", 0, false, 0⟩

/-- Witness for C3 at a concrete well-formed `BayerRG8` frame. -/
theorem C3_ordered_dispatch_and_shape_witness :
    bayerFrame.wf = true
    ∧ (spec_dispatch (strUpper "BayerRG8")).isSome = true
    ∧ ∃ r : ConvOut, convert_image_to_bgr bayerFrame = .ok r
        ∧ some r.action = spec_dispatch (strUpper "BayerRG8")
        ∧ r.out.channels = 3
        ∧ r.out.rows = bayerFrame.img.rows
        ∧ r.out.cols = bayerFrame.img.cols :=
  ⟨by decide, by decide,
   C3_ordered_dispatch_and_shape bayerFrame "BayerRG8" rfl (by decide) (by decide)⟩

/-! ## C6 -/

/-- The buffer shapes `GetNDArray` delivers for a real frame: positive
dimensions, and either a single plane or an interleaved buffer with 3 or
4 channels (the device contract, complementing `RawFrame.wf`). -/
def deviceShapeOk (i : Img) : Bool :=
  i.nonempty && (i.ndim == 2 || i.channels == 3 || i.channels == 4)

/-- The dimensionality fallback of `convert_image_to_bgr`: grayscale
expansion on a single-plane buffer, channel swap on a 3- or 4-channel
buffer, always diagnosed, never raising. -/
theorem fallback_ok (img : Img) (hne : img.nonempty = true)
    (hdim : (img.ndim == 2 || img.channels == 3 || img.channels == 4) = true) :
    ∃ r : ConvOut,
      (if img.ndim == 2 then
         (cvtColor img .gray2bgr).map (fun b => (⟨b, .fallbackGray, true⟩ : ConvOut))
       else
         (cvtColor img .rgb2bgr).map (fun b => (⟨b, .fallbackColor, true⟩ : ConvOut))) = .ok r
      ∧ r.warned = true
      ∧ r.action = (if img.ndim == 2 then ConvAction.fallbackGray else ConvAction.fallbackColor)
      ∧ r.out.channels = 3 ∧ r.out.rows = img.rows ∧ r.out.cols = img.cols := by
  cases img with
  | gray m =>
    refine ⟨⟨.multi (expandGray m), .fallbackGray, true⟩, ?_, rfl, ?_, ?_, ?_, ?_⟩
    · simp [Img.ndim, cvtColor, hne, Except.map]
    · simp [Img.ndim]
    · exact (expandGray_shape m hne).1
    · exact (expandGray_shape m hne).2.1
    · exact (expandGray_shape m hne).2.2
  | multi m =>
    have hc : Img.channels (.multi m) = 3 ∨ Img.channels (.multi m) = 4 := by
      simpa [Img.ndim] using hdim
    refine ⟨⟨.multi (swapRB m), .fallbackColor, true⟩, ?_, rfl, ?_, ?_, ?_, ?_⟩
    · rcases hc with h | h <;> simp [Img.ndim, cvtColor, hne, h, Except.map]
    · simp [Img.ndim]
    · exact (swapRB_shape m hc).1
    · exact (swapRB_shape m hc).2.1
    · exact (swapRB_shape m hc).2.2

/-- On every frame satisfying the device contract (tag-consistent layout,
device-deliverable shape) the normalizer is total: the selected branch
always applies a conversion whose requirements its input meets, so
nothing raises. -/
theorem convert_device_frame_total (f : RawFrame)
    (h1 : f.wf = true) (h2 : deviceShapeOk f.img = true) :
    ∃ r : ConvOut, convert_image_to_bgr f = .ok r := by
  unfold deviceShapeOk at h2
  rw [Bool.and_eq_true] at h2
  obtain ⟨hne, hdim⟩ := h2
  have hwf := h1
  unfold RawFrame.wf at hwf
  cases hname : f.fmtName with
  | none =>
    simp only [convert_image_to_bgr, hname]
    obtain ⟨r, hr, -⟩ := fallback_ok f.img hne hdim
    exact ⟨r, hr⟩
  | some name =>
    rw [hname, Bool.and_eq_true] at hwf
    have htag := hwf.2
    simp only [convert_image_to_bgr, hname]
    cases hm : strContains (strUpper name) "MONO8" with
    | true =>
      simp only [tagShapeOk, hm, if_true] at htag
      cases himg : f.img with
      | multi m => rw [himg] at htag; simp [Img.ndim] at htag
      | gray m =>
        rw [himg] at hne
        exact ⟨⟨.multi (expandGray m), .mono, false⟩,
          by simp [himg, cvtColor, hne, Except.map]⟩
    | false =>
    cases hr : strContains (strUpper name) "RGB8" with
    | true =>
      simp only [tagShapeOk, hm, hr, if_true, Bool.false_eq_true, if_false] at htag
      cases himg : f.img with
      | gray m => rw [himg] at htag; simp [Img.channels] at htag
      | multi m =>
        rw [himg] at htag hne
        exact ⟨⟨.multi (swapRB m), .rgbSwap, false⟩,
          by simp [himg, cvtColor, hne, htag, Except.map]⟩
    | false =>
    cases hb : strContains (strUpper name) "BGR8" with
    | true => exact ⟨⟨f.img, .bgrPass, false⟩, by simp [hm, hr, hb]⟩
    | false =>
    cases hb1 : strContains (strUpper name) "BAYERRG8" with
    | true =>
      simp only [tagShapeOk, hm, hr, hb, hb1, Bool.true_or, Bool.or_true, Bool.false_or,
        if_true, Bool.false_eq_true, if_false] at htag
      cases himg : f.img with
      | multi m => rw [himg] at htag; simp [Img.ndim] at htag
      | gray m =>
        rw [himg] at hne
        exact ⟨⟨.multi (demosaic .rg m), .bayerRG, false⟩,
          by simp [himg, cvtColor, hne, Except.map]⟩
    | false =>
    cases hb2 : strContains (strUpper name) "BAYERGB8" with
    | true =>
      simp only [tagShapeOk, hm, hr, hb, hb1, hb2, Bool.true_or, Bool.or_true,
        Bool.false_or, if_true, Bool.false_eq_true, if_false] at htag
      cases himg : f.img with
      | multi m => rw [himg] at htag; simp [Img.ndim] at htag
      | gray m =>
        rw [himg] at hne
        exact ⟨⟨.multi (demosaic .gb m), .bayerGB, false⟩,
          by simp [himg, cvtColor, hne, Except.map]⟩
    | false =>
    cases hb3 : strContains (strUpper name) "BAYERGR8" with
    | true =>
      simp only [tagShapeOk, hm, hr, hb, hb1, hb2, hb3, Bool.true_or, Bool.or_true,
        Bool.false_or, if_true, Bool.false_eq_true, if_false] at htag
      cases himg : f.img with
      | multi m => rw [himg] at htag; simp [Img.ndim] at htag
      | gray m =>
        rw [himg] at hne
        exact ⟨⟨.multi (demosaic .gr m), .bayerGR, false⟩,
          by simp [himg, cvtColor, hne, Except.map]⟩
    | false =>
    cases hb4 : strContains (strUpper name) "BAYERBG8" with
    | true =>
      simp only [tagShapeOk, hm, hr, hb, hb1, hb2, hb3, hb4, Bool.true_or, Bool.or_true,
        Bool.false_or, if_true, Bool.false_eq_true, if_false] at htag
      cases himg : f.img with
      | multi m => rw [himg] at htag; simp [Img.ndim] at htag
      | gray m =>
        rw [himg] at hne
        exact ⟨⟨.multi (demosaic .bg m), .bayerBG, false⟩,
          by simp [himg, cvtColor, hne, Except.map]⟩
    | false =>
      simp only [Bool.false_eq_true, if_false]
      obtain ⟨r, hrr, -⟩ := fallback_ok f.img hne hdim
      exact ⟨r, hrr⟩

/-- C6: on every frame the device can deliver (tag-consistent layout and
a `GetNDArray` shape: single-plane, or 3- or 4-channel interleaved) the
normalizer raises nothing; and on every such frame whose tag is
unrecognized but present, and on every such frame with no tag at all, it
falls back by buffer dimensionality — single-plane buffers expanded as
grayscale, multi-plane buffers channel-swapped as RGB-ordered — emitting
a non-fatal diagnostic, so an unrecognized format never aborts the
pipeline. -/
theorem C6_fallback_no_raise (f : RawFrame)
    (h1 : f.wf = true) (h2 : deviceShapeOk f.img = true) :
    (∃ r : ConvOut, convert_image_to_bgr f = .ok r)
    ∧ (∀ name, f.fmtName = some name → spec_dispatch (strUpper name) = none →
        ∃ r : ConvOut, convert_image_to_bgr f = .ok r ∧ r.warned = true
          ∧ r.action = (if f.img.ndim == 2 then ConvAction.fallbackGray
                        else ConvAction.fallbackColor)
          ∧ r.out.channels = 3 ∧ r.out.rows = f.img.rows ∧ r.out.cols = f.img.cols)
    ∧ (f.fmtName = none →
        ∃ r : ConvOut, convert_image_to_bgr f = .ok r ∧ r.warned = true
          ∧ r.action = (if f.img.ndim == 2 then ConvAction.fallbackGray
                        else ConvAction.fallbackColor)
          ∧ r.out.channels = 3 ∧ r.out.rows = f.img.rows ∧ r.out.cols = f.img.cols) := by
  have hs := h2
  unfold deviceShapeOk at hs
  rw [Bool.and_eq_true] at hs
  obtain ⟨hne, hdim⟩ := hs
  refine ⟨convert_device_frame_total f h1 h2, ?_, ?_⟩
  · intro name hn hnone
    cases hm : strContains (strUpper name) "MONO8" with
    | true => simp [spec_dispatch, hm] at hnone
    | false =>
    cases hr : strContains (strUpper name) "RGB8" with
    | true => simp [spec_dispatch, hm, hr] at hnone
    | false =>
    cases hb : strContains (strUpper name) "BGR8" with
    | true => simp [spec_dispatch, hm, hr, hb] at hnone
    | false =>
    cases hb1 : strContains (strUpper name) "BAYERRG8" with
    | true => simp [spec_dispatch, hm, hr, hb, hb1] at hnone
    | false =>
    cases hb2 : strContains (strUpper name) "BAYERGB8" with
    | true => simp [spec_dispatch, hm, hr, hb, hb1, hb2] at hnone
    | false =>
    cases hb3 : strContains (strUpper name) "BAYERGR8" with
    | true => simp [spec_dispatch, hm, hr, hb, hb1, hb2, hb3] at hnone
    | false =>
    cases hb4 : strContains (strUpper name) "BAYERBG8" with
    | true => simp [spec_dispatch, hm, hr, hb, hb1, hb2, hb3, hb4] at hnone
    | false =>
      simp only [convert_image_to_bgr, hn, hm, hr, hb, hb1, hb2, hb3, hb4,
        Bool.false_eq_true, if_false]
      exact fallback_ok f.img hne hdim
  · intro hn
    simp only [convert_image_to_bgr, hn]
    exact fallback_ok f.img hne hdim

/-- Witness for C6 at three concrete device-deliverable frames: the
single-plane unrecognized name `YUV8`, the 4-channel real format name
`BGRa8` (converted by the fallback, not an error), and a 4-channel frame
with no format name. -/
theorem C6_fallback_no_raise_witness :
    (yuvFrame.wf = true ∧ deviceShapeOk yuvFrame.img = true
      ∧ spec_dispatch (strUpper "YUV8") = none
      ∧ ∃ r : ConvOut, convert_image_to_bgr yuvFrame = .ok r ∧ r.warned = true
          ∧ r.action = (if yuvFrame.img.ndim == 2 then ConvAction.fallbackGray
                        else ConvAction.fallbackColor)
          ∧ r.out.channels = 3 ∧ r.out.rows = yuvFrame.img.rows
          ∧ r.out.cols = yuvFrame.img.cols)
    ∧ (bgra8Frame.wf = true ∧ deviceShapeOk bgra8Frame.img = true
      ∧ spec_dispatch (strUpper "BGRa8") = none
      ∧ ∃ r : ConvOut, convert_image_to_bgr bgra8Frame = .ok r ∧ r.warned = true
          ∧ r.action = (if bgra8Frame.img.ndim == 2 then ConvAction.fallbackGray
                        else ConvAction.fallbackColor)
          ∧ r.out.channels = 3 ∧ r.out.rows = bgra8Frame.img.rows
          ∧ r.out.cols = bgra8Frame.img.cols)
    ∧ (noNameFourChannelFrame.wf = true ∧ deviceShapeOk noNameFourChannelFrame.img = true
      ∧ ∃ r : ConvOut, convert_image_to_bgr noNameFourChannelFrame = .ok r ∧ r.warned = true
          ∧ r.action = (if noNameFourChannelFrame.img.ndim == 2 then ConvAction.fallbackGray
                        else ConvAction.fallbackColor)
          ∧ r.out.channels = 3 ∧ r.out.rows = noNameFourChannelFrame.img.rows
          ∧ r.out.cols = noNameFourChannelFrame.img.cols) :=
  ⟨⟨by decide, by decide, by decide,
    (C6_fallback_no_raise yuvFrame (by decide) (by decide)).2.1 "YUV8" rfl (by decide)⟩,
   ⟨by decide, by decide, by decide,
    (C6_fallback_no_raise bgra8Frame (by decide) (by decide)).2.1 "BGRa8" rfl (by decide)⟩,
   ⟨by decide, by decide,
    (C6_fallback_no_raise noNameFourChannelFrame (by decide) (by decide)).2.2 rfl⟩⟩

/-! ## C1 -/

/-- One camera delivering a complete frame, an incomplete frame, then a
complete frame on which the user quits. -/
def devGoodRun : RealtimeDevice :=
  ⟨1, true, [⟨.ok goodFrame, false⟩, ⟨.ok incompleteFrame, false⟩, ⟨.ok goodFrame, true⟩], tdOk⟩

/-- Every frame the device behaviour delivers satisfies the device
contract (tag-consistent layout and a deliverable buffer shape). -/
def framesOk (inputs : List LoopInput) : Bool :=
  inputs.all (fun inp =>
    match inp.fetched with
    | .ok f => f.wf && deviceShapeOk f.img
    | .err => true)

/-- The teardown trace contains no fetch or release events. -/
theorem teardown_no_frame_events (b : TeardownBehavior) :
    countEv (teardown b).1 .releaseFrame = 0 ∧ countEv (teardown b).1 .fetchOk = 0 := by
  rcases b with ⟨e, d, c, r⟩
  cases e <;> cases d <;> cases c <;> cases r <;> exact ⟨rfl, rfl⟩

theorem countEv_append (a b : List Ev) (e : Ev) :
    countEv (a ++ b) e = countEv a e + countEv b e := by
  simp [countEv]

/-- Over any device behaviour whose fetched frames satisfy the device
contract, the loop emits exactly one release per successful fetch, on
every exit path (end of behaviour, quit key, fetch failure,
incomplete-frame skip). -/
theorem loopRun_release_balance (saveN : Nat) (dir : String) (ts : Nat → String)
    (inputs : List LoopInput) (count : Nat) (h : framesOk inputs = true) :
    countEv (loopRun saveN dir ts inputs count).1 .releaseFrame =
      countEv (loopRun saveN dir ts inputs count).1 .fetchOk := by
  induction inputs generalizing count with
  | nil => rfl
  | cons inp rest ih =>
    rw [framesOk, List.all_cons, Bool.and_eq_true] at h
    obtain ⟨hhead, hrest⟩ := h
    have hrest1 : framesOk rest = true := hrest
    cases hfe : inp.fetched with
    | err => simp [loopRun, hfe, countEv]
    | ok f =>
      rw [hfe] at hhead
      cases hinc : f.incomplete with
      | true =>
        simp only [loopRun, hfe, hinc, if_true]
        rw [countEv_append, countEv_append, ih count hrest1]
        simp [countEv]
      | false =>
        rw [Bool.and_eq_true] at hhead
        obtain ⟨r, hcv⟩ := convert_device_frame_total f hhead.1 hhead.2
        cases hq : inp.keyQ with
        | true =>
          simp only [loopRun, hfe, hinc, hq, hcv]
          cases hs : (count + 1) % saveN == 0 <;>
            simp [countEv_append, countEv]
        | false =>
          have ihc := ih (count + 1) hrest1
          simp only [countEv] at ihc ⊢
          simp only [loopRun, hfe, hinc, hq, hcv]
          cases hs : (count + 1) % saveN == 0 <;>
            simp [List.count_append, ihc]

/-- C1: every successfully fetched frame is released exactly once, on
every modelled exit path of both flows (quit key, fetch failure, end of
behaviour, incomplete-frame skip): over any device behaviour delivering
device-contract frames, the number of release events equals the number
of successful fetches in the realtime run, teardown included, and in the
single-frame flow. Under the device contract the normalizer is total
(`convert_device_frame_total`), so the conversion-raises path is
unreachable and the release that follows conversion always runs. -/
theorem C1_release_exactly_once_per_fetched_frame (saveN : Nat) (dir : String)
    (ts : Nat → String) (dev : RealtimeDevice) (h : framesOk dev.inputs = true) :
    countEv (realtime_view_and_save saveN dir ts dev).1 .releaseFrame =
      countEv (realtime_view_and_save saveN dir ts dev).1 .fetchOk
    ∧ (∀ (d : SingleDevice) (f : RawFrame), d.fetched = .ok f →
        (f.wf && deviceShapeOk f.img) = true →
        countEv (acquire_single_frame d).2.1 .releaseFrame =
          countEv (acquire_single_frame d).2.1 .fetchOk) := by
  constructor
  · unfold realtime_view_and_save
    cases hz : dev.numCameras == 0 with
    | true => simp [countEv]
    | false =>
      have hb := loopRun_release_balance saveN dir ts dev.inputs 0 h
      have ht := teardown_no_frame_events dev.td
      cases hw : dev.acqModeWritable <;>
        · simp only [Bool.false_eq_true, if_false, if_true, countEv_append]
          rw [hb, ht.1, ht.2]
          simp [countEv]
  · intro d f hfe hf
    rw [Bool.and_eq_true] at hf
    unfold acquire_single_frame
    cases hw : d.acqModeWritable with
    | false => simp [countEv]
    | true =>
      simp only [hfe, Bool.not_true, Bool.false_eq_true, if_false]
      cases hinc : f.incomplete with
      | true => simp [hinc, countEv]
      | false =>
        obtain ⟨r, hcv⟩ := convert_device_frame_total f hf.1 hf.2
        simp [hinc, hcv, countEv]

/-- Witness for C1: a run with two complete frames and one incomplete
frame releases three times for three successful fetches, and the
single-frame flow releases its one fetched frame. -/
theorem C1_release_exactly_once_per_fetched_frame_witness :
    framesOk devGoodRun.inputs = true
    ∧ countEv (realtime_view_and_save 10 "captures" tsFixed devGoodRun).1 .releaseFrame =
        countEv (realtime_view_and_save 10 "captures" tsFixed devGoodRun).1 .fetchOk
    ∧ countEv (realtime_view_and_save 10 "captures" tsFixed devGoodRun).1 .releaseFrame = 3
    ∧ countEv (acquire_single_frame ⟨true, .ok goodFrame⟩).2.1 .releaseFrame =
        countEv (acquire_single_frame ⟨true, .ok goodFrame⟩).2.1 .fetchOk :=
  ⟨by decide,
   (C1_release_exactly_once_per_fetched_frame 10 "captures" tsFixed devGoodRun (by decide)).1,
   by decide,
   (C1_release_exactly_once_per_fetched_frame 10 "captures" tsFixed devGoodRun (by decide)).2
     ⟨true, .ok goodFrame⟩ goodFrame rfl (by decide)⟩

/-! ## C2 -/

/-- One camera on which `AcquisitionMode` is not writable, so streaming
is never started; the first fetch raises; `EndAcquisition` raises during
teardown (nothing to stop). -/
def devNeverStarted : RealtimeDevice := ⟨1, false, [⟨.err, false⟩], ⟨true, false, false, false⟩⟩

/-- One camera on which the run ends normally but `DeInit` raises during
teardown. -/
def devDeInitRaises : RealtimeDevice := ⟨1, true, [⟨.ok goodFrame, true⟩], ⟨false, true, false, false⟩⟩

/-- C2: the teardown discipline, evaluated. When streaming was never
started, the failing stop step is absorbed and the device is closed, the
list cleared and the session released, in that strict order — the
never-started part of the claim holds. But only the stop step is guarded:
when the close step (`DeInit`) raises, the clear and release steps never
run and the teardown exception propagates, contradicting the claim that
failure of a step does not prevent the subsequent steps. -/
theorem C2_teardown_order_and_unguarded_steps :
    (realtime_view_and_save 10 "captures" tsFixed devNeverStarted).1 =
      [.makeDirs "captures", .initCam, .acqModeError, .fetchAttempt,
       .endAcqFailedIgnored, .deInitOk, .clearList, .releaseInstance, .destroyWindows]
    ∧ (realtime_view_and_save 10 "captures" tsFixed devNeverStarted).2 = some .fetchFailed
    ∧ countEv (realtime_view_and_save 10 "captures" tsFixed devDeInitRaises).1 .clearList = 0
    ∧ countEv (realtime_view_and_save 10 "captures" tsFixed devDeInitRaises).1 .releaseInstance = 0
    ∧ (realtime_view_and_save 10 "captures" tsFixed devDeInitRaises).1.getLast? =
        some .deInitRaised
    ∧ (realtime_view_and_save 10 "captures" tsFixed devDeInitRaises).2 = some .teardownFailed := by
  decide

/-! ## C5 -/

/-- A single-frame run whose only fetch returns an incomplete frame. -/
def singleRunIncomplete : SingleRunDevice := ⟨1, ⟨true, .ok incompleteFrame⟩⟩

/-- C5 counterexample: in the single-frame flow an incomplete frame is
released and skipped, but the flow then returns no frame and the caller
reports a run-level `[ERROR]` and ends the run — not only a per-frame
warning. -/
theorem C5_single_frame_error_counterexample :
    Ev.errAcquireFailed ∈ (lab2_single_frame singleRunIncomplete "single_frame.png").1
    ∧ countEv (lab2_single_frame singleRunIncomplete "single_frame.png").1
        (.saveSingle "single_frame.png") = 0
    ∧ countEv (lab2_single_frame singleRunIncomplete "single_frame.png").1 .releaseFrame = 1
    ∧ countEv (lab2_single_frame singleRunIncomplete "single_frame.png").1 .convertOk = 0
    ∧ countEv (lab2_single_frame singleRunIncomplete "single_frame.png").1 .convertRaised = 0 := by
  decide

/-- C5 amended: an incomplete frame is warned about, released exactly
once, never passed to the normalizer and never saved, in both flows; the
continuous loop then continues with an unchanged frame count, while the
single-frame flow returns no frame (and its caller ends the run with an
error report, as the counterexample shows). -/
theorem C5_amended_incomplete_frame_handling (saveN : Nat) (dir : String) (ts : Nat → String)
    (inputs : List LoopInput) (count : Nat) (f : RawFrame) (q : Bool)
    (hf : f.incomplete = true) :
    (loopRun saveN dir ts (⟨.ok f, q⟩ :: inputs) count).1 =
      [.fetchAttempt, .fetchOk, .warnIncomplete f.status, .releaseFrame]
        ++ (loopRun saveN dir ts inputs count).1
    ∧ (loopRun saveN dir ts (⟨.ok f, q⟩ :: inputs) count).2 =
        (loopRun saveN dir ts inputs count).2
    ∧ ∀ d : SingleDevice, d.acqModeWritable = true → d.fetched = .ok f →
        acquire_single_frame d =
          (none,
           [.beginAcq, .fetchAttempt, .fetchOk, .warnIncomplete f.status,
            .releaseFrame, .endAcqOk],
           none) := by
  refine ⟨?_, ?_, ?_⟩
  · simp [loopRun, hf]
  · simp [loopRun, hf]
  · intro d hw hfe
    simp [acquire_single_frame, hw, hfe, hf]

/-- Witness for C5 at the concrete incomplete frame in an otherwise empty
run. -/
theorem C5_amended_incomplete_frame_handling_witness :
    incompleteFrame.incomplete = true
    ∧ ((loopRun 10 "captures" tsFixed [⟨.ok incompleteFrame, false⟩] 0).1 =
        [.fetchAttempt, .fetchOk, .warnIncomplete incompleteFrame.status, .releaseFrame]
          ++ (loopRun 10 "captures" tsFixed [] 0).1
       ∧ (loopRun 10 "captures" tsFixed [⟨.ok incompleteFrame, false⟩] 0).2 =
           (loopRun 10 "captures" tsFixed [] 0).2
       ∧ ∀ d : SingleDevice, d.acqModeWritable = true → d.fetched = .ok incompleteFrame →
           acquire_single_frame d =
             (none,
              [.beginAcq, .fetchAttempt, .fetchOk, .warnIncomplete incompleteFrame.status,
               .releaseFrame, .endAcqOk],
              none)) :=
  ⟨rfl, C5_amended_incomplete_frame_handling 10 "captures" tsFixed [] 0 incompleteFrame false rfl⟩

/-! ## C8 -/

/-- The per-iteration behaviour of a smooth run: a complete `Mono8` frame
and no quit key. -/
def goodInput : LoopInput := ⟨.ok goodFrame, false⟩

/-- A run of 35 complete frames on one camera, clean teardown. -/
def dev35 : RealtimeDevice := ⟨1, true, List.replicate 35 goodInput, tdOk⟩

theorem goodFrame_incomplete : goodFrame.incomplete = false := rfl

theorem convert_goodFrame :
    convert_image_to_bgr goodFrame =
      .ok ⟨.multi [[[5, 5, 5], [6, 6, 6]], [[7, 7, 7], [8, 8, 8]]], .mono, false⟩ := rfl

theorem savesOf_append (a b : List Ev) : savesOf (a ++ b) = savesOf a ++ savesOf b := by
  simp [savesOf]

/-- The save events the loop is expected to produce over `k` further
complete frames starting from frame count `count`, save cadence `saveN`. -/
def specSaves (ts : Nat → String) (dir : String) (saveN : Nat) : Nat → Nat → List (Nat × String)
  | _, 0 => []
  | count, k + 1 =>
    (if (count + 1) % saveN == 0 then [(count + 1, frameFilename ts dir (count + 1))] else [])
      ++ specSaves ts dir saveN (count + 1) k

theorem savesOf_loopRun_replicate (ts : Nat → String) (dir : String) (k count : Nat) :
    savesOf (loopRun 10 dir ts (List.replicate k goodInput) count).1 =
      specSaves ts dir 10 count k := by
  induction k generalizing count with
  | zero => simp [loopRun, savesOf, specSaves]
  | succ k ih =>
    rw [List.replicate_succ]
    cases hc : (count + 1) % 10 == 0 with
    | true =>
      simp [loopRun, goodInput, goodFrame_incomplete, convert_goodFrame, hc,
        savesOf, specSaves, ← ih]
    | false =>
      simp [loopRun, goodInput, goodFrame_incomplete, convert_goodFrame, hc,
        savesOf, specSaves, ← ih]

/-- C8: over a run of 35 complete frames with save cadence N = 10 the
loop saves exactly at frame counts 10, 20 and 30, each to
`<dir>/frame_<timestamp>_<6-digit zero-padded count>.png` (the timestamp
being whatever the wall clock reads at that save), and the very first
action of the run creates the output directory. -/
theorem C8_save_cadence_and_filenames (ts : Nat → String) :
    savesOf (realtime_view_and_save 10 "captures" ts dev35).1 =
      [(10, "captures/frame_" ++ ts 10 ++ "_" ++ "000010" ++ ".png"),
       (20, "captures/frame_" ++ ts 20 ++ "_" ++ "000020" ++ ".png"),
       (30, "captures/frame_" ++ ts 30 ++ "_" ++ "000030" ++ ".png")]
    ∧ (realtime_view_and_save 10 "captures" ts dev35).1.head? = some (.makeDirs "captures")
    ∧ pad6 10 = "000010" ∧ (pad6 10).length = 6 ∧ (pad6 20).length = 6
    ∧ (pad6 30).length = 6 := by
  refine ⟨?_, rfl, rfl, rfl, rfl, rfl⟩
  have htrace : (realtime_view_and_save 10 "captures" ts dev35).1 =
      [Ev.makeDirs "captures"] ++ [Ev.initCam, Ev.beginAcq]
        ++ (loopRun 10 "captures" ts (List.replicate 35 goodInput) 0).1
        ++ (teardown tdOk).1 := rfl
  rw [htrace, savesOf_append, savesOf_append, savesOf_append,
      savesOf_loopRun_replicate ts "captures" 35 0]
  rfl

/-- Witness for C8 at a concrete wall clock. -/
theorem C8_save_cadence_and_filenames_witness :
    savesOf (realtime_view_and_save 10 "captures" tsFixed dev35).1 =
      [(10, "captures/frame_" ++ tsFixed 10 ++ "_" ++ "000010" ++ ".png"),
       (20, "captures/frame_" ++ tsFixed 20 ++ "_" ++ "000020" ++ ".png"),
       (30, "captures/frame_" ++ tsFixed 30 ++ "_" ++ "000030" ++ ".png")]
    ∧ (realtime_view_and_save 10 "captures" tsFixed dev35).1.head? =
        some (.makeDirs "captures")
    ∧ pad6 10 = "000010" ∧ (pad6 10).length = 6 ∧ (pad6 20).length = 6
    ∧ (pad6 30).length = 6 :=
  C8_save_cadence_and_filenames tsFixed

end Camera
